import Mathlib

/-!
Verification of the Spark-UI metrics collection and JSON-compaction program
(`integration_Spark_UI_Open_AI.py`) against its design specification.

The Python data values flowing through the program are JSON-like documents:
dictionaries with string keys, lists, strings, integers, floats, booleans and
`None`.  Floats in this program are only ever compared for equality against the
literals `0` / `0.0`, an exact comparison, so they are embedded as rationals.
-/

/-- Shallow embedding of the Python/JSON values handled by the program.
`null` is Python `None`. -/
inductive JsonVal where
  | int (n : Int)
  | float (q : Rat)
  | bool (b : Bool)
  | str (s : String)
  | list (xs : List JsonVal)
  | dict (kvs : List (String × JsonVal))
  | null
deriving Repr

/-- Python membership test `v in [0, 0.0, "", [], {}, None]` (the dictionary
sentinel list on line 47 of the source).  Python `==` identifies numbers across
`int`/`float`/`bool` (`False == 0`, `0 == 0.0`), so an integer zero, a float
zero and `False` are all members; a dict (list) is a member exactly when it is
empty. -/
def memSentinelDict : JsonVal → Bool
  | .int n => n == 0
  | .float q => q == 0
  | .bool b => !b
  | .str s => s == ""
  | .list xs => xs.isEmpty
  | .dict kvs => kvs.isEmpty
  | .null => true

/-- Python membership test `item in [0.0, {}, [], None]` (the list sentinel
list on line 51 of the source).  Note `""` is absent here (`"" == 0.0` is
false in Python), while integer `0` and `False` are members via `0 == 0.0`. -/
def memSentinelList : JsonVal → Bool
  | .int n => n == 0
  | .float q => q == 0
  | .bool b => !b
  | .str _ => false
  | .list xs => xs.isEmpty
  | .dict kvs => kvs.isEmpty
  | .null => true

/-- The pre-recursion scan of the list branch (lines 50-51): Python's
`for item in json_data: if item not in [0.0, {}, [], None]: return ...`
returns the compacted list as soon as some element is not a raw sentinel. -/
def listHasNonEmpty (xs : List JsonVal) : Bool :=
  xs.any fun item => !memSentinelList item

mutual
/-- `SparkEnvironment.json_compaction` (source lines 45-55).
Dict branch: `{k: compact(v) for k, v in json_data.items() if v not in
[0, 0.0, "", [], {}, None]}` — the filter tests the RAW value `v`, the
recursion happens only on the survivors.  List branch: if some element is not
a raw list-sentinel, every element is compacted in place, else the empty list
is returned.  Scalars are returned unchanged. -/
def json_compaction : JsonVal → JsonVal
  | .dict kvs => .dict (compactEntries kvs)
  | .list xs => if listHasNonEmpty xs then .list (compactAll xs) else .list []
  | .int n => .int n
  | .float q => .float q
  | .bool b => .bool b
  | .str s => .str s
  | .null => .null

/-- Elementwise compaction of a list node's elements (the comprehension
`[self.json_compaction(item) for item in json_data]`, line 52). -/
def compactAll : List JsonVal → List JsonVal
  | [] => []
  | x :: xs => json_compaction x :: compactAll xs

/-- The dict comprehension of line 47: keep an entry when its raw value is not
a sentinel, compacting the kept value.  (Python dicts are duplicate-free; the
association lists embedding them here are used duplicate-free as well.) -/
def compactEntries : List (String × JsonVal) → List (String × JsonVal)
  | [] => []
  | (k, v) :: rest =>
      if memSentinelDict v then compactEntries rest
      else (k, json_compaction v) :: compactEntries rest
end

mutual
/-- Spec section 8 / claim C5 vocabulary: a document is sentinel-free when no
subterm of it (a mapping value, a sequence element, or the document itself)
equals one of the empty sentinels `0`, `0.0`, `""`, empty sequence, empty
mapping, or absent — i.e. no subterm passes the source's dictionary sentinel
membership test. -/
def sentinelFree : JsonVal → Bool
  | .dict kvs => !memSentinelDict (.dict kvs) && entriesFree kvs
  | .list xs => !memSentinelDict (.list xs) && allFree xs
  | v => !memSentinelDict v

/-- Every element of a list of documents is sentinel-free. -/
def allFree : List JsonVal → Bool
  | [] => true
  | x :: xs => sentinelFree x && allFree xs

/-- Every value of an association list of entries is sentinel-free. -/
def entriesFree : List (String × JsonVal) → Bool
  | [] => true
  | kv :: rest => sentinelFree kv.2 && entriesFree rest
end

/-- Python truthiness (`if not job_details`, `if applications`): zero numbers,
`False`, `""`, empty containers and `None` are falsy, all else truthy. -/
def pyTruthy : JsonVal → Bool
  | .int n => n != 0
  | .float q => q != 0
  | .bool b => b
  | .str s => s != ""
  | .list xs => !xs.isEmpty
  | .dict kvs => !kvs.isEmpty
  | .null => false

/-- Python `str()` as used by the source's f-string URL and message
interpolation.  The interpolated values in the program are strings, integers
and `None` (an unset attribute); containers and floats are never interpolated
on the modelled paths, so their representation here is nominal. -/
def pyStr : JsonVal → String
  | .int n => toString n
  | .float q => toString q
  | .bool b => if b then "True" else "False"
  | .str s => s
  | .list _ => "[...]"
  | .dict _ => "{...}"
  | .null => "None"

/-- Python `d.get(key, default)` (and one-argument `d.get(key)` with the
default `None`): a key lookup on a dict, `AttributeError` on any non-dict
value — in particular on `None`, which is how `None.get("stages")` fails. -/
def pyDictGet : JsonVal → String → JsonVal → Except String JsonVal
  | .dict kvs, k, d =>
      match kvs.find? fun kv => kv.1 == k with
      | some kv => .ok kv.2
      | none => .ok d
  | _, _, _ => .error "AttributeError"

/-- Python subscript `x[i]`: list indexing (negative indices wrap, out of
range is `IndexError`; a boolean index counts as `0`/`1`), dict lookup by
string key (`KeyError` when missing; JSON object keys are strings, so any
other key type misses), string indexing, and `TypeError` elsewhere. -/
def pySubscript : JsonVal → JsonVal → Except String JsonVal
  | .list xs, .int n =>
      let i : Int := if n < 0 then n + xs.length else n
      if h : 0 ≤ i ∧ i.toNat < xs.length then .ok (xs.get ⟨i.toNat, h.2⟩)
      else .error "IndexError"
  | .list xs, .bool b =>
      let i : Nat := if b then 1 else 0
      if h : i < xs.length then .ok (xs.get ⟨i, h⟩) else .error "IndexError"
  | .dict kvs, .str k =>
      match kvs.find? fun kv => kv.1 == k with
      | some kv => .ok kv.2
      | none => .error "KeyError"
  | .dict _, _ => .error "KeyError"
  | .str s, .int n =>
      let i : Int := if n < 0 then n + s.length else n
      if h : 0 ≤ i ∧ i.toNat < s.data.length
      then .ok (.str (String.singleton (s.data.get ⟨i.toNat, h.2⟩)))
      else .error "IndexError"
  | _, _ => .error "TypeError"

/-- Python iteration `for x in v`: lists yield their elements, strings their
one-character substrings, dicts their keys; scalars and `None` raise
`TypeError`. -/
def pyIter : JsonVal → Except String (List JsonVal)
  | .list xs => .ok xs
  | .str s => .ok (s.data.map fun c => .str (String.singleton c))
  | .dict kvs => .ok (kvs.map fun kv => .str kv.1)
  | _ => .error "TypeError"

/-- An HTTP response at the interface boundary of spec section 6: a status
code and the JSON value its body parses to.  (The transport itself — network
errors, URL-scheme validation by the `requests` library, and malformed
non-JSON bodies — is the out-of-scope external collaborator of the spec; the
backend oracle below answers every URL with a response whose body is already
parsed.) -/
structure HttpResponse where
  status_code : Nat
  body : JsonVal

/-- The monitoring REST backend as an oracle from request URL to response,
consumed through `requests.get`. -/
def Backend : Type := String → HttpResponse

/-- `LocalSparkEnvironment` (source lines 203-270): the local Spark-UI
variant.  `application_id` is the mutable field set by the base class
`SparkEnvironment.__init__` (`None` initially) and cached by
`get_application_id`. -/
structure LocalSparkEnvironment where
  local_spark_ui_url : JsonVal
  local_application_id : JsonVal
  application_id : JsonVal

/-- `NonDatabricksSparkEnvironment` (source lines 138-199). -/
structure NonDatabricksSparkEnvironment where
  spark_master_url : JsonVal
  NonDatabricksSparkEnvironment_application_id : JsonVal
  application_id : JsonVal

/-- `DatabricksSparkEnvironment` (source lines 67-134). -/
structure DatabricksSparkEnvironment where
  databricks_token : JsonVal
  databricks_instance : JsonVal
  databricks_application_id : JsonVal
  application_id : JsonVal

/-- `LocalSparkEnvironment.get_application_id` (lines 210-216): GET
`{url}/applications`; on status 200 set `self.application_id` to
`applications[0]["id"]` if the listing is truthy else `None`; on any other
status leave the field unchanged; return `self.application_id`.  The result
pairs the returned value with the post-call instance state. -/
def LocalSparkEnvironment.get_application_id (env : LocalSparkEnvironment)
    (b : Backend) : Except String (JsonVal × LocalSparkEnvironment) :=
  let response := b (pyStr env.local_spark_ui_url ++ "/applications")
  if response.status_code == 200 then
    let applications := response.body
    if pyTruthy applications then do
      let a0 ← pySubscript applications (.int 0)
      let idv ← pySubscript a0 (.str "id")
      .ok (idv, ⟨env.local_spark_ui_url, env.local_application_id, idv⟩)
    else
      .ok (.null, ⟨env.local_spark_ui_url, env.local_application_id, .null⟩)
  else
    .ok (env.application_id, env)

/-- `NonDatabricksSparkEnvironment.get_application_id` (lines 144-150): same
shape as the local variant against `{spark_master_url}/applications`. -/
def NonDatabricksSparkEnvironment.get_application_id
    (env : NonDatabricksSparkEnvironment) (b : Backend) :
    Except String (JsonVal × NonDatabricksSparkEnvironment) :=
  let response := b (pyStr env.spark_master_url ++ "/applications")
  if response.status_code == 200 then
    let applications := response.body
    if pyTruthy applications then do
      let a0 ← pySubscript applications (.int 0)
      let idv ← pySubscript a0 (.str "id")
      .ok (idv, ⟨env.spark_master_url, env.NonDatabricksSparkEnvironment_application_id, idv⟩)
    else
      .ok (.null, ⟨env.spark_master_url, env.NonDatabricksSparkEnvironment_application_id, .null⟩)
  else
    .ok (env.application_id, env)

/-- `DatabricksSparkEnvironment._databricks_api_get` (lines 74-81): GET
`{instance}{endpoint}` with the bearer header; return the parsed body on
status 200, otherwise raise `Exception("Failed to fetch data from
Databricks. Status: ...")`.  (The leading underscore of the Python name is
dropped.) -/
def DatabricksSparkEnvironment.databricks_api_get (env : DatabricksSparkEnvironment)
    (b : Backend) (endpoint : String) : Except String JsonVal :=
  let response := b (pyStr env.databricks_instance ++ endpoint)
  if response.status_code == 200 then .ok response.body
  else .error ("Failed to fetch data from Databricks. Status: " ++ toString response.status_code)

/-- `DatabricksSparkEnvironment.get_application_id` (lines 83-86):
`jobs = self._databricks_api_get("/api/2.0/jobs/list")` (raises on non-200),
then `self.application_id = jobs["jobs"][0]["job_id"] if jobs else None` —
note the truthiness test is on the whole response mapping, not on the inner
job listing. -/
def DatabricksSparkEnvironment.get_application_id (env : DatabricksSparkEnvironment)
    (b : Backend) : Except String (JsonVal × DatabricksSparkEnvironment) := do
  let jobs ← env.databricks_api_get b "/api/2.0/jobs/list"
  if pyTruthy jobs then do
    let l ← pySubscript jobs (.str "jobs")
    let e0 ← pySubscript l (.int 0)
    let idv ← pySubscript e0 (.str "job_id")
    .ok (idv, ⟨env.databricks_token, env.databricks_instance, env.databricks_application_id, idv⟩)
  else
    .ok (.null, ⟨env.databricks_token, env.databricks_instance, env.databricks_application_id, .null⟩)

/-- `LocalSparkEnvironment.get_specific_job_details` (lines 226-232): GET the
job URL; parsed body on 200, `None` otherwise.  No exception path. -/
def LocalSparkEnvironment.get_specific_job_details (env : LocalSparkEnvironment)
    (b : Backend) (job_id : JsonVal) : JsonVal :=
  let response := b (pyStr env.local_spark_ui_url ++ "/applications/"
      ++ pyStr env.local_application_id ++ "/jobs/" ++ pyStr job_id)
  if response.status_code == 200 then response.body else .null

/-- `NonDatabricksSparkEnvironment.get_specific_job_details` (lines 160-166). -/
def NonDatabricksSparkEnvironment.get_specific_job_details
    (env : NonDatabricksSparkEnvironment) (b : Backend) (job_id : JsonVal) : JsonVal :=
  let response := b (pyStr env.spark_master_url ++ "/applications/"
      ++ pyStr env.NonDatabricksSparkEnvironment_application_id ++ "/jobs/" ++ pyStr job_id)
  if response.status_code == 200 then response.body else .null

/-- `DatabricksSparkEnvironment.get_specific_job_details` (lines 96-102): the
source passes the RELATIVE path `/api/v1/applications/{...}/jobs/{job_id}`
straight to `requests.get` (no instance prefix); the oracle is queried with
that exact string. -/
def DatabricksSparkEnvironment.get_specific_job_details
    (env : DatabricksSparkEnvironment) (b : Backend) (job_id : JsonVal) : JsonVal :=
  let response := b ("/api/v1/applications/" ++ pyStr env.databricks_application_id
      ++ "/jobs/" ++ pyStr job_id)
  if response.status_code == 200 then response.body else .null

/-- Python `x.json()` applied to an ALREADY-PARSED JSON value (a dict, list,
string, number or `None`): none of these objects has a `json` attribute, so
the call always raises `AttributeError`.  This is what
`self._databricks_api_get(stage_url).json()` (line 116) does, since
`_databricks_api_get` already returns `response.json()`. -/
def jsonMethodOnParsed : JsonVal → Except String JsonVal :=
  fun _ => .error "AttributeError"

/-- The stage loop of `LocalSparkEnvironment.get_stage_details`
(lines 243-250): fetch each stage URL; append the parsed body on 200 and the
explicit marker `None` otherwise.  Total — no exception path. -/
def LocalSparkEnvironment.stage_fetch_loop (env : LocalSparkEnvironment)
    (b : Backend) : List JsonVal → List JsonVal
  | [] => []
  | sid :: rest =>
      let stage_details := b (pyStr env.local_spark_ui_url ++ "/applications/"
          ++ pyStr env.local_application_id ++ "/stages/" ++ pyStr sid)
      (if stage_details.status_code == 200 then stage_details.body else JsonVal.null)
        :: LocalSparkEnvironment.stage_fetch_loop env b rest

/-- The stage loop of `NonDatabricksSparkEnvironment.get_stage_details`
(lines 177-181): `requests.get(stage_url).json()` with NO status check — the
response body is appended as-is whatever the status. -/
def NonDatabricksSparkEnvironment.stage_fetch_loop (env : NonDatabricksSparkEnvironment)
    (b : Backend) : List JsonVal → List JsonVal
  | [] => []
  | sid :: rest =>
      (b (pyStr env.spark_master_url ++ "/applications/"
          ++ pyStr env.NonDatabricksSparkEnvironment_application_id ++ "/stages/"
          ++ pyStr sid)).body
        :: NonDatabricksSparkEnvironment.stage_fetch_loop env b rest

/-- The stage loop of `DatabricksSparkEnvironment.get_stage_details`
(lines 114-117): `self._databricks_api_get(stage_url).json()` — raises on any
non-200 status, and on 200 raises `AttributeError` by calling `.json()` on
the already-parsed body.  Either way the first stage aborts the whole call. -/
def DatabricksSparkEnvironment.stage_fetch_loop (env : DatabricksSparkEnvironment)
    (b : Backend) : List JsonVal → Except String (List JsonVal)
  | [] => .ok []
  | sid :: rest => do
      let parsed ← env.databricks_api_get b ("/api/v1/applications/"
          ++ pyStr env.databricks_application_id ++ "/stages/" ++ pyStr sid)
      let stage_details ← jsonMethodOnParsed parsed
      let stages ← DatabricksSparkEnvironment.stage_fetch_loop env b rest
      .ok (stage_details :: stages)

/-- `LocalSparkEnvironment.get_stage_details` (lines 234-254): look the job up
via `get_specific_job_details`; when the result is falsy print the
missing-job warning and return `None`; otherwise read `stageIds` (default
`[]`), fetch every stage through the marker-appending loop and return
`{"job_id": ..., "stages": [...]}`.  The second component of the result is
the list of lines printed to stdout. -/
def LocalSparkEnvironment.get_stage_details (env : LocalSparkEnvironment)
    (b : Backend) (job_id : JsonVal) : Except String (JsonVal × List String) :=
  let job_details := env.get_specific_job_details b job_id
  if pyTruthy job_details then do
    let stage_ids ← pyDictGet job_details "stageIds" (.list [])
    let sids ← pyIter stage_ids
    .ok (.dict [("job_id", job_id),
          ("stages", .list (LocalSparkEnvironment.stage_fetch_loop env b sids))], [])
  else
    .ok (.null, ["Job ID " ++ pyStr job_id ++ " not found in application "
        ++ pyStr env.local_application_id ++ "."])

/-- `NonDatabricksSparkEnvironment.get_stage_details` (lines 168-185). -/
def NonDatabricksSparkEnvironment.get_stage_details (env : NonDatabricksSparkEnvironment)
    (b : Backend) (job_id : JsonVal) : Except String (JsonVal × List String) :=
  let job_details := env.get_specific_job_details b job_id
  if pyTruthy job_details then do
    let stage_ids ← pyDictGet job_details "stageIds" (.list [])
    let sids ← pyIter stage_ids
    .ok (.dict [("job_id", job_id),
          ("stages", .list (NonDatabricksSparkEnvironment.stage_fetch_loop env b sids))], [])
  else
    .ok (.null, ["Job ID " ++ pyStr job_id ++ " not found in application "
        ++ pyStr env.NonDatabricksSparkEnvironment_application_id ++ "."])

/-- `DatabricksSparkEnvironment.get_stage_details` (lines 104-121): like the
other variants but with the raising stage loop. -/
def DatabricksSparkEnvironment.get_stage_details (env : DatabricksSparkEnvironment)
    (b : Backend) (job_id : JsonVal) : Except String (JsonVal × List String) :=
  let job_details := env.get_specific_job_details b job_id
  if pyTruthy job_details then do
    let stage_ids ← pyDictGet job_details "stageIds" (.list [])
    let sids ← pyIter stage_ids
    let stages ← DatabricksSparkEnvironment.stage_fetch_loop env b sids
    .ok (.dict [("job_id", job_id), ("stages", .list stages)], [])
  else
    .ok (.null, ["Job ID " ++ pyStr job_id ++ " not found in application "
        ++ pyStr env.databricks_application_id ++ "."])

/-- The keyword arguments accepted by the factory (lines 277-293).  The
factory reads each with `kwargs.get("...")`, which yields `None` for a
missing key, so a missing field is embedded as `JsonVal.null`. -/
structure Kwargs where
  local_spark_ui_url : JsonVal
  local_application_id : JsonVal
  databricks_token : JsonVal
  databricks_instance : JsonVal
  databricks_application_id : JsonVal
  spark_master_url : JsonVal
  NonDatabricksSparkEnvironment_application_id : JsonVal

/-- The kwargs mapping with every factory-read key missing. -/
def emptyKwargs : Kwargs :=
  ⟨.null, .null, .null, .null, .null, .null, .null⟩

/-- The three `SparkEnvironment` subclasses a factory call can return. -/
inductive SparkEnvVariant where
  | databricks (env : DatabricksSparkEnvironment)
  | nonDatabricks (env : NonDatabricksSparkEnvironment)
  | localEnv (env : LocalSparkEnvironment)

/-- `SparkEnvironmentFactory.get_spark_environment` (lines 276-293):
`is_local` is tested first, then `is_databricks`; each constructor is fed
`kwargs.get(...)` values (with `application_id = None` from the base
`__init__`).  There is no validation of any kind and no error path. -/
def SparkEnvironmentFactory.get_spark_environment (is_databricks : Bool)
    (is_local : Bool) (kwargs : Kwargs) : SparkEnvVariant :=
  if is_local then
    .localEnv ⟨kwargs.local_spark_ui_url, kwargs.local_application_id, .null⟩
  else if is_databricks then
    .databricks ⟨kwargs.databricks_token, kwargs.databricks_instance,
      kwargs.databricks_application_id, .null⟩
  else
    .nonDatabricks ⟨kwargs.spark_master_url,
      kwargs.NonDatabricksSparkEnvironment_application_id, .null⟩

/-- The batch stage-collection comprehension of `main` (line 343):
`[spark_env.get_stage_details(job_id=jobId) for jobId in all_job_ids]` with
the local variant chosen by `main`.  An exception in any iteration aborts the
comprehension; the printed warnings go to stdout and are dropped here. -/
def stage_details_batch (env : LocalSparkEnvironment) (b : Backend) :
    List JsonVal → Except String (List JsonVal)
  | [] => .ok []
  | j :: rest => do
      let r ← env.get_stage_details b j
      let others ← stage_details_batch env b rest
      .ok (r.1 :: others)

/-- One step of the stage-id extraction of `main` (line 349):
`stage[0].get("stageId", None)`. -/
def stage_id_of_stage (stage : JsonVal) : Except String JsonVal := do
  let first ← pySubscript stage (.int 0)
  pyDictGet first "stageId" .null

/-- The stage-id extraction loop of `main` (lines 346-349):
`for single_stage_details in all_jobs_stage_details: for stage in
single_stage_details.get("stages"): ...` — `single_stage_details.get` raises
`AttributeError` as soon as one batch entry is `None`. -/
def collect_stage_ids : List JsonVal → Except String (List JsonVal)
  | [] => .ok []
  | sd :: rest => do
      let stages ← pyDictGet sd "stages" .null
      let items ← pyIter stages
      let ids ← items.mapM stage_id_of_stage
      let restIds ← collect_stage_ids rest
      .ok (ids ++ restIds)

/-- A concrete local environment: UI url `"u"`, application id `"a"`. -/
def envL : LocalSparkEnvironment := ⟨.str "u", .str "a", .null⟩

/-- A concrete non-Databricks environment: master url `"m"`, id `"a"`. -/
def envNdb : NonDatabricksSparkEnvironment := ⟨.str "m", .str "a", .null⟩

/-- A concrete Databricks environment: token `"t"`, instance `"d"`,
application id `"a"`. -/
def envDb : DatabricksSparkEnvironment := ⟨.str "t", .str "d", .str "a", .null⟩

/-- Backend in which job 7 is unknown (404) while job 8 exists with one
stage; used for the batch-continuation scenario. -/
def backendMissingJob : Backend := fun url =>
  if url == "u/applications/a/jobs/7" then ⟨404, .null⟩
  else if url == "u/applications/a/jobs/8" then
    ⟨200, .dict [("stageIds", .list [.int 1])]⟩
  else if url == "u/applications/a/stages/1" then
    ⟨200, .list [.dict [("stageId", .int 1), ("attemptId", .int 0)]]⟩
  else ⟨404, .null⟩

/-- The stage body served for stage 1 by `backendMissingJob`. -/
def stageBody1 : JsonVal := .list [.dict [("stageId", .int 1), ("attemptId", .int 0)]]

/-- Backend for the Databricks variant in which the job is known and the
first of its two stages answers 404. -/
def backendDbStage404 : Backend := fun url =>
  if url == "/api/v1/applications/a/jobs/5" then
    ⟨200, .dict [("stageIds", .list [.int 1, .int 2])]⟩
  else if url == "d/api/v1/applications/a/stages/1" then ⟨404, .null⟩
  else ⟨200, .dict [("ok", .int 1)]⟩

/-- Backend for the Databricks variant in which the job and every stage
answer 200. -/
def backendDbStage200 : Backend := fun url =>
  if url == "/api/v1/applications/a/jobs/5" then
    ⟨200, .dict [("stageIds", .list [.int 1, .int 2])]⟩
  else ⟨200, .dict [("ok", .int 1)]⟩

/-- Backend for the non-Databricks variant: job known, stage 1 answers 404
with an error body, stage 2 answers 200. -/
def backendNdbStage404 : Backend := fun url =>
  if url == "m/applications/a/jobs/5" then
    ⟨200, .dict [("stageIds", .list [.int 1, .int 2])]⟩
  else if url == "m/applications/a/stages/1" then ⟨404, .str "err"⟩
  else if url == "m/applications/a/stages/2" then ⟨200, .str "s2"⟩
  else ⟨404, .null⟩

/-- Backend for the local variant: job known, stage 1 answers 404, stage 2
answers 200. -/
def backendLocalStage404 : Backend := fun url =>
  if url == "u/applications/a/jobs/5" then
    ⟨200, .dict [("stageIds", .list [.int 1, .int 2])]⟩
  else if url == "u/applications/a/stages/1" then ⟨404, .null⟩
  else if url == "u/applications/a/stages/2" then
    ⟨200, .list [.dict [("stageId", .int 2), ("attemptId", .int 0)]]⟩
  else ⟨404, .null⟩

/-- Backend whose Databricks job listing is `{"jobs": []}`: a 200 response
whose inner listing is empty but whose outer mapping is truthy. -/
def backendDbEmptyListing : Backend := fun url =>
  if url == "d/api/2.0/jobs/list" then ⟨200, .dict [("jobs", .list [])]⟩
  else ⟨404, .null⟩

/-- Backend serving one application `{"id": "app-1"}` on the local listing
endpoint. -/
def backendLocalApps : Backend := fun url =>
  if url == "u/applications" then ⟨200, .list [.dict [("id", .str "app-1")]]⟩
  else ⟨404, .null⟩


/-- The list sentinel set of line 51 is contained in the dictionary sentinel
set of line 47 (the latter additionally contains the empty string). -/
theorem memSentinelList_imp_memSentinelDict (v : JsonVal)
    (h : memSentinelList v = true) : memSentinelDict v = true := by
  cases v <;> simp_all [memSentinelList, memSentinelDict]

/-- A sentinel-free document is itself not a dictionary sentinel. -/
theorem sentinelFree_not_memSentinelDict (v : JsonVal)
    (h : sentinelFree v = true) : memSentinelDict v = false := by
  cases v <;> simp_all [sentinelFree, Bool.and_eq_true]

mutual
/-- Compaction is the identity on sentinel-free documents (helper shared by
the theorems below). -/
theorem sentinelFree_compaction_fix :
    ∀ v : JsonVal, sentinelFree v = true → json_compaction v = v
  | .int _, _ => rfl
  | .float _, _ => rfl
  | .bool _, _ => rfl
  | .str _, _ => rfl
  | .null, _ => rfl
  | .dict kvs, h => by
      have h2 : entriesFree kvs = true := by
        simp only [sentinelFree, Bool.and_eq_true] at h
        exact h.2
      show JsonVal.dict (compactEntries kvs) = JsonVal.dict kvs
      rw [entriesFree_compaction_fix kvs h2]
  | .list xs, h => by
      simp only [sentinelFree, memSentinelDict, Bool.and_eq_true, Bool.not_eq_eq_eq_not,
        Bool.not_true] at h
      obtain ⟨hne, hall⟩ := h
      match xs, hne with
      | x :: rest, _ =>
        have hx : sentinelFree x = true := by
          simp only [allFree, Bool.and_eq_true] at hall
          exact hall.1
        have hmx : memSentinelList x = false := by
          cases hml : memSentinelList x with
          | false => rfl
          | true =>
            have := memSentinelList_imp_memSentinelDict x hml
            rw [sentinelFree_not_memSentinelDict x hx] at this
            exact absurd this (by simp)
        have hhas : listHasNonEmpty (x :: rest) = true := by
          simp [listHasNonEmpty, hmx]
        show (if listHasNonEmpty (x :: rest) then JsonVal.list (compactAll (x :: rest))
              else JsonVal.list []) = JsonVal.list (x :: rest)
        rw [hhas, if_pos rfl, allFree_compaction_fix (x :: rest) hall]

/-- Elementwise compaction is the identity on lists of sentinel-free
documents. -/
theorem allFree_compaction_fix :
    ∀ xs : List JsonVal, allFree xs = true → compactAll xs = xs
  | [], _ => rfl
  | x :: xs, h => by
      simp only [allFree, Bool.and_eq_true] at h
      show json_compaction x :: compactAll xs = x :: xs
      rw [sentinelFree_compaction_fix x h.1, allFree_compaction_fix xs h.2]

/-- Entry compaction is the identity on association lists of sentinel-free
values. -/
theorem entriesFree_compaction_fix :
    ∀ kvs : List (String × JsonVal), entriesFree kvs = true → compactEntries kvs = kvs
  | [], _ => rfl
  | (k, v) :: rest, h => by
      simp only [entriesFree, Bool.and_eq_true] at h
      have hv : memSentinelDict v = false := sentinelFree_not_memSentinelDict v h.1
      show (if memSentinelDict v then compactEntries rest
            else (k, json_compaction v) :: compactEntries rest) = (k, v) :: rest
      rw [hv, if_neg (by simp), sentinelFree_compaction_fix v h.1,
        entriesFree_compaction_fix rest h.2]
end

/-- The comprehension of line 52 is `List.map json_compaction`. -/
theorem compactAll_eq_map (xs : List JsonVal) :
    compactAll xs = xs.map json_compaction := by
  induction xs with
  | nil => rfl
  | cons x xs ih => simp [compactAll, ih]

/-- The dict comprehension of line 47 filters entries by their RAW value and
then compacts the kept values: filter before recursion, never after. -/
theorem compactEntries_eq_filter_map (kvs : List (String × JsonVal)) :
    compactEntries kvs
      = (kvs.filter fun kv => !memSentinelDict kv.2).map
          fun kv => (kv.1, json_compaction kv.2) := by
  induction kvs with
  | nil => rfl
  | cons kv rest ih =>
      obtain ⟨k, v⟩ := kv
      cases hv : memSentinelDict v with
      | true => simp [compactEntries, hv, List.filter_cons, ih]
      | false => simp [compactEntries, hv, List.filter_cons, ih]

/-- The pre-recursion scan succeeds exactly when not every element is a raw
list sentinel. -/
theorem listHasNonEmpty_eq_not_all (xs : List JsonVal) :
    listHasNonEmpty xs = !(xs.all memSentinelList) := by
  induction xs with
  | nil => rfl
  | cons x xs ih =>
      simp only [listHasNonEmpty] at ih
      simp only [listHasNonEmpty, List.any_cons, List.all_cons, Bool.not_and, ih]

/-- Claim C1 is false on the code: compaction is not idempotent.  Concretely,
the mapping filter tests the raw value of a key, so a value that only becomes
a sentinel after compaction survives one pass and is dropped by the next:
`compact({"a": [0]}) == {"a": []}` but `compact(compact({"a": [0]})) == {}`. -/
theorem json_compaction_not_idempotent_cex :
    json_compaction (json_compaction (JsonVal.dict [("a", JsonVal.list [JsonVal.int 0])]))
      ≠ json_compaction (JsonVal.dict [("a", JsonVal.list [JsonVal.int 0])]) := by
  have h1 : json_compaction (JsonVal.dict [("a", JsonVal.list [JsonVal.int 0])])
      = JsonVal.dict [("a", JsonVal.list [])] := rfl
  rw [h1]
  have h2 : json_compaction (JsonVal.dict [("a", JsonVal.list [])]) = JsonVal.dict [] := rfl
  rw [h2]
  simp

/-- Claim C1 (amended): `compact(compact(D)) == compact(D)` does hold for
every sentinel-free document `D` (where compaction is the identity), but not
for all documents. -/
theorem json_compaction_idempotent_on_sentinel_free (v : JsonVal)
    (h : sentinelFree v = true) :
    json_compaction (json_compaction v) = json_compaction v := by
  rw [sentinelFree_compaction_fix v h, sentinelFree_compaction_fix v h]

/-- Claim C1 amended witness: idempotence at the concrete sentinel-free
document `{"b": 1}`. -/
theorem json_compaction_idempotent_on_sentinel_free_witness :
    sentinelFree (JsonVal.dict [("b", JsonVal.int 1)]) = true ∧
    json_compaction (json_compaction (JsonVal.dict [("b", JsonVal.int 1)]))
      = json_compaction (JsonVal.dict [("b", JsonVal.int 1)]) :=
  ⟨rfl, json_compaction_idempotent_on_sentinel_free (JsonVal.dict [("b", JsonVal.int 1)]) rfl⟩

/-- Claim C2 is false on the code: the mapping branch drops keys by their RAW
(pre-recursion) value, not their compacted value, so
`compact({"a": {"b": {}}})` is `{"a": {}}`, not `{}` as the claim states. -/
theorem json_compaction_dict_postfilter_cex :
    json_compaction (JsonVal.dict [("a", JsonVal.dict [("b", JsonVal.dict [])])])
      = JsonVal.dict [("a", JsonVal.dict [])] ∧
    JsonVal.dict [("a", JsonVal.dict [])] ≠ JsonVal.dict [] :=
  ⟨rfl, by simp⟩

/-- Claim C2 (amended): for every mapping node, compaction drops exactly those
keys whose RAW (pre-recursion) value equals one of the sentinels
`0, 0.0, "", [], {}, None`; the surviving keys keep their insertion order and
their values are then recursively compacted.  In particular
`compact({"a": {"b": {}}}) == {"a": {}}` and
`compact({"a": [0, 0.0, None]}) == {"a": []}`. -/
theorem json_compaction_dict_prefilter :
    (∀ kvs : List (String × JsonVal),
        json_compaction (JsonVal.dict kvs)
          = JsonVal.dict ((kvs.filter fun kv => !memSentinelDict kv.2).map
              fun kv => (kv.1, json_compaction kv.2))) ∧
    json_compaction (JsonVal.dict [("a", JsonVal.dict [("b", JsonVal.dict [])])])
      = JsonVal.dict [("a", JsonVal.dict [])] ∧
    json_compaction
        (JsonVal.dict [("a", JsonVal.list [JsonVal.int 0, JsonVal.float 0, JsonVal.null])])
      = JsonVal.dict [("a", JsonVal.list [])] :=
  ⟨fun kvs => by
      show JsonVal.dict (compactEntries kvs) = _
      rw [compactEntries_eq_filter_map],
    rfl, rfl⟩

/-- Claim C3: the sequence branch decides survival by a pre-recursion scan of
the raw elements against the list sentinel set; if every element is a raw
sentinel the whole sequence compacts to `[]`, otherwise every element is
recursively compacted in place and none is removed.  In particular
`compact({"a": [0, 5, 0]}) == {"a": [0, 5, 0]}`. -/
theorem json_compaction_list_two_pass :
    (∀ xs : List JsonVal, xs.all memSentinelList = true →
        json_compaction (JsonVal.list xs) = JsonVal.list []) ∧
    (∀ xs : List JsonVal, xs.all memSentinelList = false →
        json_compaction (JsonVal.list xs) = JsonVal.list (xs.map json_compaction)) ∧
    json_compaction
        (JsonVal.dict [("a", JsonVal.list [JsonVal.int 0, JsonVal.int 5, JsonVal.int 0])])
      = JsonVal.dict [("a", JsonVal.list [JsonVal.int 0, JsonVal.int 5, JsonVal.int 0])] := by
  refine ⟨?_, ?_, rfl⟩
  · intro xs hall
    show (if listHasNonEmpty xs then JsonVal.list (compactAll xs) else JsonVal.list [])
        = JsonVal.list []
    rw [listHasNonEmpty_eq_not_all, hall]
    rfl
  · intro xs hall
    show (if listHasNonEmpty xs then JsonVal.list (compactAll xs) else JsonVal.list [])
        = JsonVal.list (xs.map json_compaction)
    rw [listHasNonEmpty_eq_not_all, hall]
    show JsonVal.list (compactAll xs) = JsonVal.list (xs.map json_compaction)
    rw [compactAll_eq_map]

/-- Claim C3 witness: both branches of the scan at concrete lists —
`[0, None]` is fully raw-sentinel and compacts to `[]`, while `[0, 5]`
survives with its elements (`0` included) kept in place. -/
theorem json_compaction_list_two_pass_witness :
    json_compaction (JsonVal.list [JsonVal.int 0, JsonVal.null]) = JsonVal.list [] ∧
    json_compaction (JsonVal.list [JsonVal.int 0, JsonVal.int 5])
      = JsonVal.list [JsonVal.int 0, JsonVal.int 5] := by
  constructor
  · exact json_compaction_list_two_pass.1 [JsonVal.int 0, JsonVal.null] rfl
  · have h := json_compaction_list_two_pass.2.1 [JsonVal.int 0, JsonVal.int 5] rfl
    simpa [json_compaction] using h

/-- Claim C4 is false on the code: Python `==` identifies `False` with `0`
(and with `0.0`), so `False in [0, 0.0, "", [], {}, None]` and
`False in [0.0, {}, [], None]` are both true.  A key whose value is `False`
is dropped, and an element `False` counts as empty in the sequence scan. -/
theorem json_compaction_false_kept_cex :
    json_compaction (JsonVal.dict [("a", JsonVal.bool false)]) = JsonVal.dict [] ∧
    JsonVal.dict [] ≠ JsonVal.dict [("a", JsonVal.bool false)] ∧
    json_compaction (JsonVal.list [JsonVal.bool false]) = JsonVal.list [] ∧
    JsonVal.list [] ≠ JsonVal.list [JsonVal.bool false] :=
  ⟨rfl, by simp, rfl, by simp⟩

/-- Claim C4 (amended): the boolean `False` IS treated as an empty sentinel by
compaction (Python `==` identifies it with `0`/`0.0`): it is a member of both
sentinel sets, a mapping key whose raw value is `False` is dropped, and in the
sequence scan an element `False` cannot rescue the sequence. -/
theorem json_compaction_false_is_sentinel :
    memSentinelDict (JsonVal.bool false) = true ∧
    memSentinelList (JsonVal.bool false) = true ∧
    (∀ (k : String) (kvs : List (String × JsonVal)),
        json_compaction (JsonVal.dict ((k, JsonVal.bool false) :: kvs))
          = json_compaction (JsonVal.dict kvs)) ∧
    (∀ xs : List JsonVal,
        listHasNonEmpty (JsonVal.bool false :: xs) = listHasNonEmpty xs) :=
  ⟨rfl, rfl, fun _ _ => rfl, fun xs => by simp [listHasNonEmpty, memSentinelList]⟩

/-- Claim C5: compaction is the identity on documents in which no subterm
(mapping value, sequence element, or the document itself) equals one of the
empty sentinels `0, 0.0, "", [], {}, None`. -/
theorem json_compaction_identity_on_sentinel_free (v : JsonVal)
    (h : sentinelFree v = true) : json_compaction v = v :=
  sentinelFree_compaction_fix v h

/-- Claim C5 witness: identity at the concrete sentinel-free document
`{"n": 3, "s": "x", "l": [7]}`. -/
theorem json_compaction_identity_on_sentinel_free_witness :
    sentinelFree (JsonVal.dict
      [("n", JsonVal.int 3), ("s", JsonVal.str "x"), ("l", JsonVal.list [JsonVal.int 7])]) = true ∧
    json_compaction (JsonVal.dict
      [("n", JsonVal.int 3), ("s", JsonVal.str "x"), ("l", JsonVal.list [JsonVal.int 7])])
      = JsonVal.dict
      [("n", JsonVal.int 3), ("s", JsonVal.str "x"), ("l", JsonVal.list [JsonVal.int 7])] :=
  ⟨rfl, json_compaction_identity_on_sentinel_free (JsonVal.dict
      [("n", JsonVal.int 3), ("s", JsonVal.str "x"), ("l", JsonVal.list [JsonVal.int 7])]) rfl⟩

/-- Claim C6: for an unknown jobId the local `get_stage_details` returns
`None` without raising and prints the warning, and the batch comprehension of
`main` goes on to process the remaining job ids — but the claim's
"instead of aborting" part fails: the very next step of the pipeline, the
stage-id extraction of lines 346-349, calls `None.get("stages")` on the
absent contribution and raises `AttributeError`, aborting the run. -/
theorem local_get_stage_details_absent_pipeline_aborts :
    LocalSparkEnvironment.get_stage_details envL backendMissingJob (.int 7)
      = .ok (.null, ["Job ID 7 not found in application a."]) ∧
    stage_details_batch envL backendMissingJob [.int 7, .int 8]
      = .ok [.null, .dict [("job_id", .int 8), ("stages", .list [stageBody1])]] ∧
    collect_stage_ids [.null, .dict [("job_id", .int 8), ("stages", .list [stageBody1])]]
      = .error "AttributeError" :=
  ⟨rfl, rfl, rfl⟩

/-- Claim C7: the non-fatal per-stage policy is NOT uniform.  On a stage
fetch failure the Databricks variant raises (aborting the whole call and
never fetching the remaining stage) — and even with an all-200 backend it
raises `AttributeError` by calling `.json()` on an already-parsed body; the
non-Databricks variant appends the raw body of the failed response with no
status check and no marker; only the local variant implements the claimed
policy of appending the `None` marker and fetching the remaining stages. -/
theorem get_stage_details_stage_failure_policy :
    DatabricksSparkEnvironment.get_stage_details envDb backendDbStage404 (.int 5)
      = .error "Failed to fetch data from Databricks. Status: 404" ∧
    DatabricksSparkEnvironment.get_stage_details envDb backendDbStage200 (.int 5)
      = .error "AttributeError" ∧
    NonDatabricksSparkEnvironment.get_stage_details envNdb backendNdbStage404 (.int 5)
      = .ok (.dict [("job_id", .int 5), ("stages", .list [.str "err", .str "s2"])], []) ∧
    LocalSparkEnvironment.get_stage_details envL backendLocalStage404 (.int 5)
      = .ok (.dict [("job_id", .int 5),
          ("stages", .list [.null,
            .list [.dict [("stageId", .int 2), ("attemptId", .int 0)]]])], []) :=
  ⟨rfl, rfl, rfl, rfl⟩

/-- Claim C9 is false on the code: the factory performs no validation, so a
call that is missing every field required for the chosen kind (here the local
kind with no `local_spark_ui_url`) still succeeds at construction time and
returns a `LocalSparkEnvironment` whose fields are `None` — the factory's
return type has no error outcome at all, and misconfiguration can only
surface later, at first use. -/
theorem factory_no_configuration_error_cex :
    SparkEnvironmentFactory.get_spark_environment false true emptyKwargs
      = SparkEnvVariant.localEnv ⟨.null, .null, .null⟩ :=
  rfl

/-- Claim C9 (amended): the factory never fails and never validates — for
every kwargs mapping it returns the variant selected by the two boolean
discriminators alone, with each constructor field taken from `kwargs.get`
(hence `None` whenever missing); a missing required field is detected only
lazily at first use of the constructed source, not at construction. -/
theorem factory_total_no_validation :
    (∀ (d : Bool) (k : Kwargs),
        SparkEnvironmentFactory.get_spark_environment d true k
          = SparkEnvVariant.localEnv ⟨k.local_spark_ui_url, k.local_application_id, .null⟩) ∧
    (∀ k : Kwargs,
        SparkEnvironmentFactory.get_spark_environment true false k
          = SparkEnvVariant.databricks ⟨k.databricks_token, k.databricks_instance,
              k.databricks_application_id, .null⟩) ∧
    (∀ k : Kwargs,
        SparkEnvironmentFactory.get_spark_environment false false k
          = SparkEnvVariant.nonDatabricks ⟨k.spark_master_url,
              k.NonDatabricksSparkEnvironment_application_id, .null⟩) :=
  ⟨fun _ _ => rfl, fun _ => rfl, fun _ => rfl⟩

/-- Claim C10: `is_local` is tested before `is_databricks`, so with
`is_local` true the factory returns the local variant regardless of
`is_databricks`. -/
theorem factory_is_local_precedence :
    ∀ (is_databricks : Bool) (k : Kwargs),
      SparkEnvironmentFactory.get_spark_environment is_databricks true k
        = SparkEnvVariant.localEnv ⟨k.local_spark_ui_url, k.local_application_id, .null⟩ :=
  fun _ _ => rfl

/-- Reduction helper: binding an `Except.ok` value. -/
theorem exceptOkBind {ε α β : Type} (a : α) (f : α → Except ε β) :
    (Except.ok (ε := ε) a >>= f) = f a := rfl

/-- Reduction helper: binding an `Except.error` value. -/
theorem exceptErrorBind {ε α β : Type} (e : ε) (f : α → Except ε β) :
    (Except.error (α := α) e >>= f) = .error e := rfl

/-- Subscript `xs[0]` on a nonempty list yields the head. -/
theorem pySubscript_cons_zero (a : JsonVal) (rest : List JsonVal) :
    pySubscript (.list (a :: rest)) (.int 0) = .ok a := by
  simp [pySubscript]

/-- Subscript `[][0]` raises `IndexError`. -/
theorem pySubscript_nil_zero :
    pySubscript (.list []) (.int 0) = .error "IndexError" := rfl

/-- Subscript on a one-entry dict by its own key yields the value. -/
theorem pySubscript_singleton_dict (k : String) (v : JsonVal) :
    pySubscript (.dict [(k, v)]) (.str k) = .ok v := by
  simp [pySubscript, List.find?]

/-- A nonempty list is truthy. -/
theorem pyTruthy_cons (a : JsonVal) (rest : List JsonVal) :
    pyTruthy (.list (a :: rest)) = true := by
  simp [pyTruthy]

/-- A backend response is determined by its status and body. -/
theorem backend_resp_eq (b : Backend) (u : String) (s : Nat) (bod : JsonVal)
    (h1 : (b u).status_code = s) (h2 : (b u).body = bod) : b u = ⟨s, bod⟩ := by
  cases hb : b u with
  | mk s0 b0 =>
      rw [hb] at h1 h2
      simp_all

/-- Claim C8 is false on the code: with an empty job listing the Databricks
`get_application_id` does not return `None` — the truthiness guard tests the
whole response mapping `{"jobs": []}` (truthy), so `jobs["jobs"][0]` raises
`IndexError`. -/
theorem databricks_get_application_id_empty_listing_cex :
    DatabricksSparkEnvironment.get_application_id envDb backendDbEmptyListing
      = .error "IndexError" := rfl

/-- Claim C8 (amended): every variant selects index 0 of its listing as the
session target and caches it on `application_id`; the local and
non-Databricks variants return `None` on an empty listing, but the
Databricks variant tests truthiness of the whole response mapping and raises
`IndexError` when the response is `{"jobs": []}`. -/
theorem get_application_id_index0_and_cache :
    (∀ (env : LocalSparkEnvironment) (b : Backend) (a : JsonVal)
        (rest : List JsonVal) (v : JsonVal),
        (b (pyStr env.local_spark_ui_url ++ "/applications")).status_code = 200 →
        (b (pyStr env.local_spark_ui_url ++ "/applications")).body = .list (a :: rest) →
        pySubscript a (.str "id") = .ok v →
        env.get_application_id b
          = .ok (v, ⟨env.local_spark_ui_url, env.local_application_id, v⟩)) ∧
    (∀ (env : LocalSparkEnvironment) (b : Backend),
        (b (pyStr env.local_spark_ui_url ++ "/applications")).status_code = 200 →
        (b (pyStr env.local_spark_ui_url ++ "/applications")).body = .list [] →
        env.get_application_id b
          = .ok (.null, ⟨env.local_spark_ui_url, env.local_application_id, .null⟩)) ∧
    (∀ (env : NonDatabricksSparkEnvironment) (b : Backend) (a : JsonVal)
        (rest : List JsonVal) (v : JsonVal),
        (b (pyStr env.spark_master_url ++ "/applications")).status_code = 200 →
        (b (pyStr env.spark_master_url ++ "/applications")).body = .list (a :: rest) →
        pySubscript a (.str "id") = .ok v →
        env.get_application_id b
          = .ok (v, ⟨env.spark_master_url,
              env.NonDatabricksSparkEnvironment_application_id, v⟩)) ∧
    (∀ (env : NonDatabricksSparkEnvironment) (b : Backend),
        (b (pyStr env.spark_master_url ++ "/applications")).status_code = 200 →
        (b (pyStr env.spark_master_url ++ "/applications")).body = .list [] →
        env.get_application_id b
          = .ok (.null, ⟨env.spark_master_url,
              env.NonDatabricksSparkEnvironment_application_id, .null⟩)) ∧
    (∀ (env : DatabricksSparkEnvironment) (b : Backend) (a : JsonVal)
        (rest : List JsonVal) (v : JsonVal),
        (b (pyStr env.databricks_instance ++ "/api/2.0/jobs/list")).status_code = 200 →
        (b (pyStr env.databricks_instance ++ "/api/2.0/jobs/list")).body
          = .dict [("jobs", .list (a :: rest))] →
        pySubscript a (.str "job_id") = .ok v →
        env.get_application_id b
          = .ok (v, ⟨env.databricks_token, env.databricks_instance,
              env.databricks_application_id, v⟩)) ∧
    (∀ (env : DatabricksSparkEnvironment) (b : Backend),
        (b (pyStr env.databricks_instance ++ "/api/2.0/jobs/list")).status_code = 200 →
        (b (pyStr env.databricks_instance ++ "/api/2.0/jobs/list")).body
          = .dict [("jobs", .list [])] →
        env.get_application_id b = .error "IndexError") := by
  refine ⟨?_, ?_, ?_, ?_, ?_, ?_⟩
  · intro env b a rest v h200 hbody hid
    have hresp := backend_resp_eq b _ 200 (.list (a :: rest)) h200 hbody
    simp [LocalSparkEnvironment.get_application_id, hresp, pyTruthy_cons,
      pySubscript_cons_zero, exceptOkBind, hid]
  · intro env b h200 hbody
    have hresp := backend_resp_eq b _ 200 (.list []) h200 hbody
    simp [LocalSparkEnvironment.get_application_id, hresp, pyTruthy]
  · intro env b a rest v h200 hbody hid
    have hresp := backend_resp_eq b _ 200 (.list (a :: rest)) h200 hbody
    simp [NonDatabricksSparkEnvironment.get_application_id, hresp, pyTruthy_cons,
      pySubscript_cons_zero, exceptOkBind, hid]
  · intro env b h200 hbody
    have hresp := backend_resp_eq b _ 200 (.list []) h200 hbody
    simp [NonDatabricksSparkEnvironment.get_application_id, hresp, pyTruthy]
  · intro env b a rest v h200 hbody hid
    have hresp := backend_resp_eq b _ 200 (.dict [("jobs", .list (a :: rest))]) h200 hbody
    simp [DatabricksSparkEnvironment.get_application_id,
      DatabricksSparkEnvironment.databricks_api_get, hresp, pyTruthy,
      pySubscript_singleton_dict, pySubscript_cons_zero, exceptOkBind, hid]
  · intro env b h200 hbody
    have hresp := backend_resp_eq b _ 200 (.dict [("jobs", .list [])]) h200 hbody
    simp [DatabricksSparkEnvironment.get_application_id,
      DatabricksSparkEnvironment.databricks_api_get, hresp, pyTruthy,
      pySubscript_singleton_dict, pySubscript_nil_zero, exceptOkBind, exceptErrorBind]

/-- Claim C8 amended witness: the local variant resolves and caches the
index-0 entry of a concrete listing, and the Databricks variant raises
`IndexError` on the concrete empty listing. -/
theorem get_application_id_index0_and_cache_witness :
    LocalSparkEnvironment.get_application_id envL backendLocalApps
      = .ok (.str "app-1", ⟨.str "u", .str "a", .str "app-1"⟩) ∧
    DatabricksSparkEnvironment.get_application_id envDb backendDbEmptyListing
      = .error "IndexError" := by
  constructor
  · exact get_application_id_index0_and_cache.1 envL backendLocalApps
      (.dict [("id", .str "app-1")]) [] (.str "app-1") rfl rfl rfl
  · exact get_application_id_index0_and_cache.2.2.2.2.2 envDb backendDbEmptyListing rfl rfl
